import Mathlib

/-!
Shallow embedding of the natours authentication subsystem.

The handlers are translated from the auth controller (src/unnamed/part_000);
the persisted user schema and its pre-save hook from the user model
(src/unnamed/part_001).  External collaborators (bcrypt, the sha256 digest,
the jsonwebtoken codec, the nodemailer gateway) and the user-model instance
methods that are not under src/ are modelled from the spec, each marked with
a doc comment starting "Modelled from the spec:".  The Mongo collection is a
list of user documents; a mongoose save that is actually awaited or issued is
`saveUser`, while in-memory mutations that the source never saves are kept
out of the store, mirroring the source.
-/

namespace Natours

/-- application error carried to the error middleware via next(new AppError(message, statusCode)). -/
structure AppError where
  message : String
  statusCode : Nat
  deriving Repr, DecidableEq

/-- Modelled from the spec: a signed session token (the jsonwebtoken library is
external; src/ holds only its call sites).  The codec encodes the subject
user id and the issued-at instant; signature checking is the codec's own
concern, so the embedding works with already-verified decoded tokens. -/
structure SessionToken where
  id : Nat
  iat : Nat
  deriving Repr, DecidableEq

/-- persisted user document, after the fields of the user schema
(src/unnamed/part_001) plus the security fields the auth controller reads and
writes (loginAttempts, locked, confirmedEmail, the three token-hash fields,
passwordChangedAt).  The display-only fields photo and role are carried
through unchanged by every flow the claims touch and are omitted.
`password` stores the bcrypt hash once the pre-save hook has run. -/
structure UserDoc where
  id : Nat
  name : String
  email : String
  password : String
  passwordConfirm : Option String
  confirmedEmail : Bool
  emailConfirmToken : Option String
  passwordResetToken : Option String
  passwordResetExpires : Option Nat
  accountUnlockToken : Option String
  loginAttempts : Nat
  locked : Bool
  passwordChangedAt : Option Nat
  deriving Repr, DecidableEq

/-- the Credential Store: the users collection. -/
abbrev Store := List UserDoc

/-- User.findOne on the email field. -/
def findByEmail (store : Store) (email : String) : Option UserDoc :=
  store.find? (fun u => u.email == email)

/-- an awaited (or issued) user.save(): the document replaces every stored
document carrying its id. -/
def saveUser (store : Store) (u : UserDoc) : Store :=
  store.map (fun v => if v.id == u.id then u else v)

/-- Modelled from the spec: crypto.createHash sha256 hex digest of a raw
token - a fast collision-resistant digest; modelled as an injective tag. -/
def sha256Hex (s : String) : String := "sha256." ++ s

/-- Modelled from the spec: bcrypt.hash with the given cost - a slow, salted
one-way function; modelled as an injective tag recording the cost. -/
def bcryptHash (cost : Nat) (s : String) : String :=
  "bcrypt." ++ toString cost ++ "." ++ s

/-- Modelled from the spec: the userModel instance method correctPassword
(bcrypt.compare) is not under src/, only its call sites are.  True iff the
candidate plaintext hashes to the stored hash. -/
def correctPassword (candidate stored : String) : Bool :=
  bcryptHash 12 candidate == stored

/-- Modelled from the spec: the userModel instance method changedPasswordAfter
is not under src/, only its caller in protect is.  Spec: a session token whose
issued-at instant predecesses passwordChangedAt is invalid - so the method is
true iff passwordChangedAt is set and strictly later than the issued-at. -/
def changedPasswordAfter (u : UserDoc) (iat : Nat) : Bool :=
  match u.passwordChangedAt with
  | some t => decide (iat < t)
  | none => false

/-- pre-save hook of the user schema (src/unnamed/part_001): when the password
field was modified, hash it with bcrypt cost 12 and delete passwordConfirm;
otherwise leave the document untouched. -/
def preSaveHook (doc : UserDoc) (passwordModified : Bool) : UserDoc :=
  if passwordModified = false then doc
  else { doc with password := bcryptHash 12 doc.password, passwordConfirm := none }

/-- a JSON success envelope: HTTP status, optional session token, optional message. -/
structure Response where
  statusCode : Nat
  token : Option SessionToken
  message : Option String
  deriving Repr, DecidableEq

/-- observable outcome of one handler: an error forwarded to next(err), a JSON
response, a bare next() into the following middleware, or no response at all
(signup's email-failure branch calls the absent next callback and dies in an
unawaited promise, so the request receives nothing). -/
inductive HandlerOut where
  | err : AppError → HandlerOut
  | ok : Response → HandlerOut
  | passThrough : HandlerOut
  | noResponse : HandlerOut
  deriving Repr, DecidableEq

/-- the delivery-failure error every email catch-branch forwards. -/
def emailSendError : AppError :=
  { message := "There was an error sending the email. Try again later!", statusCode := 500 }

/-- the generic login failure error. -/
def incorrectError : AppError :=
  { message := "Incorrect email or password!", statusCode := 401 }

/-- Modelled from the spec: a mongoose validation failure (schema validators of
src/unnamed/part_001) surfaces as a 400 ValidationError per spec section 7;
the error-translation middleware itself is not under src/. -/
def validationError : AppError :=
  { message := "ValidationError", statusCode := 400 }

/-- createSendToken: sign a token for the user id and answer 200 with it.  The
cookie and the sanitized user body carry no state the claims touch. -/
def createSendToken (u : UserDoc) (statusCode : Nat) (iat : Nat) : HandlerOut :=
  .ok { statusCode := statusCode, token := some { id := u.id, iat := iat }, message := none }

/-- login handler (src/unnamed/part_000 lines 115-154).  The email-failure
oracle is not needed here; iat is the issued-at instant the codec stamps.
Empty strings stand for the falsy missing body fields.  On the wrong-password
branch the incremented document is saved; on the success branch the source
resets loginAttempts only on the in-memory document and never calls save, so
the store is returned unchanged there. -/
def login (store : Store) (email password : String) (iat : Nat) : Store × HandlerOut :=
  if email = "" ∨ password = "" then
    (store, .err { message := "Please provide email and password!", statusCode := 400 })
  else
    match findByEmail store email with
    | none => (store, .err incorrectError)
    | some user =>
      if correctPassword password user.password = false then
        let attempts := user.loginAttempts + 1
        let user1 := { user with
          loginAttempts := attempts
          locked := if attempts > 2 then true else user.locked }
        (saveUser store user1, .err incorrectError)
      else if user.confirmedEmail = false then
        (store, .err { message := "Email was not confirmed! Please check your inbox.", statusCode := 423 })
      else
        (store, createSendToken { user with loginAttempts := 0 } 200 iat)

/-- matching predicate used by checkUserLocked and unlockAccount: the stored
accountUnlockToken hash equals the digest of the presented raw token. -/
def unlockMatch (raw : String) (u : UserDoc) : Bool :=
  u.accountUnlockToken == some (sha256Hex raw)

/-- checkUserLocked middleware (src/unnamed/part_000 lines 157-205).  `raw` is
the random unlock token the Token Codec would draw; `emailOk` is the
Notification Gateway outcome.  A locked account gets a freshly minted (and
saved) unlock token hash; a delivery failure clears it again and forwards the
500; otherwise the 423 locked error is forwarded.  An unlocked account falls
through to the next middleware. -/
def checkUserLocked (store : Store) (email raw : String) (emailOk : Bool) :
    Store × HandlerOut :=
  match findByEmail store email with
  | none => (store, .err { message := "User not found!", statusCode := 400 })
  | some user =>
    if user.locked then
      let user1 := { user with accountUnlockToken := some (sha256Hex raw) }
      let store1 := saveUser store user1
      if emailOk then
        (store1, .err { message := "Your account is locked! An unlock token was sent to your email.", statusCode := 423 })
      else
        let user2 := { user1 with accountUnlockToken := none }
        (saveUser store1 user2, .err emailSendError)
    else
      (store, .passThrough)

/-- unlockAccount handler (src/unnamed/part_000 lines 208-231): look the user
up by the unlock-token hash, reset loginAttempts, clear the token, unlock,
save, and issue a session token. -/
def unlockAccount (store : Store) (raw : String) (iat : Nat) : Store × HandlerOut :=
  match store.find? (unlockMatch raw) with
  | none => (store, .err { message := "Invalid token! User does not exist.", statusCode := 401 })
  | some user =>
    let user1 := { user with loginAttempts := 0, accountUnlockToken := none, locked := false }
    (saveUser store user1, createSendToken user1 200 iat)

/-- fresh document id for User.create. -/
def freshId (store : Store) : Nat :=
  store.foldr (fun u m => max (u.id + 1) m) 0

/-- schema validation run by User.create and a full user.save() (required
fields, passwordConfirm matching password, minLength 8, unique email), from
src/unnamed/part_001. -/
def validSignup (store : Store) (name email password passwordConfirm : String) : Bool :=
  name != "" && email != "" && password != "" && passwordConfirm != "" &&
    passwordConfirm == password && decide (8 ≤ password.length) &&
    (findByEmail store email).isNone

/-- sendEmailToken helper (src/unnamed/part_000 lines 44-64): answer 200 on
delivery, otherwise forward the 500 through next - but its single caller,
signup, passes no next argument, so on that failure branch the callback is
absent and the request receives no response at all. -/
def sendEmailToken (emailOk : Bool) (hasNext : Bool) : HandlerOut :=
  if emailOk then
    .ok { statusCode := 200, token := none, message := some "Email sent with verification token. Check your inbox!" }
  else if hasNext then .err emailSendError
  else .noResponse

/-- signup handler (src/unnamed/part_000 lines 67-88): create the user (the
pre-save hook hashes the password and deletes passwordConfirm), mint the
email-confirmation token hash, save, and hand off to sendEmailToken without a
next argument.  The failure branch clears nothing. -/
def signup (store : Store) (name email password passwordConfirm raw : String)
    (emailOk : Bool) : Store × HandlerOut :=
  if validSignup store name email password passwordConfirm = false then
    (store, .err validationError)
  else
    let newUser : UserDoc :=
      { id := freshId store
        name := name
        email := email
        password := bcryptHash 12 password
        passwordConfirm := none
        confirmedEmail := false
        emailConfirmToken := some (sha256Hex raw)
        passwordResetToken := none
        passwordResetExpires := none
        accountUnlockToken := none
        loginAttempts := 0
        locked := false
        passwordChangedAt := none }
    (store ++ [newUser], sendEmailToken emailOk false)

/-- confirmEmail handler (src/unnamed/part_000 lines 91-112): look the user up
by the confirmation-token hash, set confirmedEmail, clear the token, save,
and issue a session token. -/
def confirmEmail (store : Store) (raw : String) (iat : Nat) : Store × HandlerOut :=
  match store.find? (fun u => u.emailConfirmToken == some (sha256Hex raw)) with
  | none => (store, .err { message := "Invalid token! User does not exist.", statusCode := 401 })
  | some user =>
    let user1 := { user with confirmedEmail := true, emailConfirmToken := none }
    (saveUser store user1, createSendToken user1 200 iat)

/-- Modelled from the spec: createPasswordResetToken is not under src/; reset
tokens carry a 10 minute validity window. -/
def resetTokenValidityMs : Nat := 10 * 60 * 1000

/-- forgotPassword handler (src/unnamed/part_000 lines 300-341): mint and save
the reset-token hash with its expiry, send the email; on delivery failure
clear both fields, save, and forward the 500. -/
def forgotPassword (store : Store) (email raw : String) (now : Nat) (emailOk : Bool) :
    Store × HandlerOut :=
  match findByEmail store email with
  | none => (store, .err { message := "There is no user with such email address.", statusCode := 404 })
  | some user =>
    let user1 := { user with
      passwordResetToken := some (sha256Hex raw)
      passwordResetExpires := some (now + resetTokenValidityMs) }
    let store1 := saveUser store user1
    if emailOk then
      (store1, .ok { statusCode := 200, token := none, message := some "Token sent to email!" })
    else
      let user2 := { user1 with passwordResetToken := none, passwordResetExpires := none }
      (saveUser store1 user2, .err emailSendError)

/-- matching predicate of resetPassword's findOne: the stored reset-token hash
equals the digest of the presented raw token and the expiry lies strictly in
the future. -/
def resetMatch (raw : String) (now : Nat) (u : UserDoc) : Bool :=
  u.passwordResetToken == some (sha256Hex raw) &&
    match u.passwordResetExpires with
    | some e => decide (now < e)
    | none => false

/-- resetPassword handler (src/unnamed/part_000 lines 344-368): look the user
up by reset-token hash and unexpired window; set the new password, clear the
token fields and save with full validation (the pre-save hook hashes the
password and deletes passwordConfirm; passwordChangedAt is updated - Modelled
from the spec, that hook is not under src/); then issue a session token. -/
def resetPassword (store : Store) (raw password passwordConfirm : String)
    (now iat : Nat) : Store × HandlerOut :=
  match store.find? (resetMatch raw now) with
  | none => (store, .err { message := "Token is invalid or has expired!", statusCode := 400 })
  | some user =>
    if passwordConfirm == password && decide (8 ≤ password.length) then
      let user1 := { user with
        password := bcryptHash 12 password
        passwordConfirm := none
        passwordResetToken := none
        passwordResetExpires := none
        passwordChangedAt := some now }
      (saveUser store user1, createSendToken user1 200 iat)
    else
      (store, .err validationError)

/-- updatePassword handler (src/unnamed/part_000 lines 371-387): re-check the
current password, then set the new one and save with full validation (pre-save
hook as in resetPassword); issue a session token.  protect guarantees the id
exists; a vanished id would crash into the generic 500 of the error
middleware (Modelled from the spec, section 7). -/
def updatePassword (store : Store) (userId : Nat)
    (passwordCurrent password passwordConfirm : String) (now iat : Nat) :
    Store × HandlerOut :=
  match store.find? (fun u => u.id == userId) with
  | none => (store, .err { message := "Internal Server Error", statusCode := 500 })
  | some user =>
    if correctPassword passwordCurrent user.password = false then
      (store, .err { message := "Your current password is wrong.", statusCode := 401 })
    else if passwordConfirm == password && decide (8 ≤ password.length) then
      let user1 := { user with
        password := bcryptHash 12 password
        passwordConfirm := none
        passwordChangedAt := some now }
      (saveUser store user1, createSendToken user1 200 iat)
    else
      (store, .err validationError)

/-- protect middleware (src/unnamed/part_000 lines 234-276) on an
already-decoded bearer token (extraction of the Authorization header and the
signature check live in the HTTP framework and the jwt codec): absence is a
401, a vanished subject is a 401, a token older than the last password change
is a 401, otherwise access is granted as req.user. -/
def protect (store : Store) (tok : Option SessionToken) : Except AppError UserDoc :=
  match tok with
  | none => .error { message := "You are not logged in! Please log in to get access.", statusCode := 401 }
  | some t =>
    match store.find? (fun u => u.id == t.id) with
    | none => .error { message := "The user beloging to this token no longer exists.", statusCode := 401 }
    | some user =>
      if changedPasswordAfter user t.iat then
        .error { message := "User recently changed password! Please log in again.", statusCode := 401 }
      else
        .ok user

/-- one state-mutating operation of the Account Security State Machine, with
the oracle inputs (random raw tokens, clock instants, issued-at stamps,
delivery outcomes) made explicit arguments. -/
inductive Op where
  | signupOp (name email password passwordConfirm raw : String) (emailOk : Bool)
  | confirmEmailOp (raw : String) (iat : Nat)
  | loginOp (email password : String) (iat : Nat)
  | checkUserLockedOp (email raw : String) (emailOk : Bool)
  | unlockAccountOp (raw : String) (iat : Nat)
  | forgotPasswordOp (email raw : String) (now : Nat) (emailOk : Bool)
  | resetPasswordOp (raw password passwordConfirm : String) (now iat : Nat)
  | updatePasswordOp (userId : Nat) (passwordCurrent password passwordConfirm : String) (now iat : Nat)

/-- run one operation against the Credential Store. -/
def applyOp (store : Store) : Op → Store × HandlerOut
  | .signupOp n e p pc raw emailOk => signup store n e p pc raw emailOk
  | .confirmEmailOp raw iat => confirmEmail store raw iat
  | .loginOp e p iat => login store e p iat
  | .checkUserLockedOp e raw emailOk => checkUserLocked store e raw emailOk
  | .unlockAccountOp raw iat => unlockAccount store raw iat
  | .forgotPasswordOp e raw now emailOk => forgotPassword store e raw now emailOk
  | .resetPasswordOp raw p pc now iat => resetPassword store raw p pc now iat
  | .updatePasswordOp uid pc p pcf now iat => updatePassword store uid pc p pcf now iat

/-- the lockout invariant the code actually maintains: a locked account has
strictly more than 2 recorded failed attempts (the source locks once
loginAttempts > 2, i.e. on the third failure). -/
def lockInvariant (store : Store) : Prop :=
  ∀ u ∈ store, u.locked = true → u.loginAttempts > 2

instance (store : Store) : Decidable (lockInvariant store) := by
  unfold lockInvariant; infer_instance

theorem mem_saveUser {store : Store} {u v : UserDoc} (hv : v ∈ saveUser store u) :
    v = u ∨ v ∈ store := by
  unfold saveUser at hv
  rcases List.mem_map.mp hv with ⟨w, hw, hweq⟩
  by_cases h : (w.id == u.id) = true
  · rw [if_pos h] at hweq
    exact Or.inl hweq.symm
  · rw [if_neg h] at hweq
    exact Or.inr (hweq ▸ hw)

/-- saving a document that itself satisfies the lockout property preserves the
invariant. -/
theorem lockInvariant_saveUser {store : Store} {u : UserDoc}
    (hs : lockInvariant store) (hu : u.locked = true → u.loginAttempts > 2) :
    lockInvariant (saveUser store u) := by
  intro v hv hvlock
  rcases mem_saveUser hv with rfl | hvmem
  · exact hu hvlock
  · exact hs v hvmem hvlock

theorem mem_of_findByEmail {store : Store} {e : String} {u : UserDoc}
    (h : findByEmail store e = some u) : u ∈ store :=
  List.mem_of_find?_eq_some h

theorem lockInvariant_append {store : Store} {u : UserDoc}
    (hs : lockInvariant store) (hu : u.locked = true → u.loginAttempts > 2) :
    lockInvariant (store ++ [u]) := by
  intro v hv hvlock
  rcases List.mem_append.mp hv with hvmem | hvone
  · exact hs v hvmem hvlock
  · rw [List.mem_singleton.mp hvone]
    exact hu (List.mem_singleton.mp hvone ▸ hvlock)

theorem lockInvariant_login {store : Store} {e p : String} {iat : Nat}
    (hs : lockInvariant store) : lockInvariant (login store e p iat).fst := by
  unfold login
  split
  · exact hs
  · split
    · exact hs
    · next user hfind =>
      split
      · dsimp only
        apply lockInvariant_saveUser hs
        intro hlock
        dsimp only at hlock ⊢
        by_cases hgt : user.loginAttempts + 1 > 2
        · omega
        · rw [if_neg hgt] at hlock
          have := hs user (mem_of_findByEmail hfind) hlock
          omega
      · split
        · exact hs
        · exact hs

theorem lockInvariant_checkUserLocked {store : Store} {e raw : String} {emailOk : Bool}
    (hs : lockInvariant store) : lockInvariant (checkUserLocked store e raw emailOk).fst := by
  unfold checkUserLocked
  split
  · exact hs
  · next user hfind =>
    have hmem := mem_of_findByEmail hfind
    split
    · split
      · dsimp only
        exact lockInvariant_saveUser hs (fun h => hs user hmem h)
      · dsimp only
        exact lockInvariant_saveUser (lockInvariant_saveUser hs (fun h => hs user hmem h))
          (fun h => hs user hmem h)
    · exact hs

theorem lockInvariant_unlockAccount {store : Store} {raw : String} {iat : Nat}
    (hs : lockInvariant store) : lockInvariant (unlockAccount store raw iat).fst := by
  unfold unlockAccount
  split
  · exact hs
  · dsimp only
    exact lockInvariant_saveUser hs (fun h => by simp at h)

theorem lockInvariant_signup {store : Store} {n e p pc raw : String} {emailOk : Bool}
    (hs : lockInvariant store) : lockInvariant (signup store n e p pc raw emailOk).fst := by
  unfold signup
  split
  · exact hs
  · dsimp only
    exact lockInvariant_append hs (fun h => by simp at h)

theorem lockInvariant_confirmEmail {store : Store} {raw : String} {iat : Nat}
    (hs : lockInvariant store) : lockInvariant (confirmEmail store raw iat).fst := by
  unfold confirmEmail
  split
  · exact hs
  · next user hfind =>
    have hmem := List.mem_of_find?_eq_some hfind
    dsimp only
    exact lockInvariant_saveUser hs (fun h => hs user hmem h)

theorem lockInvariant_forgotPassword {store : Store} {e raw : String} {now : Nat}
    {emailOk : Bool} (hs : lockInvariant store) :
    lockInvariant (forgotPassword store e raw now emailOk).fst := by
  unfold forgotPassword
  split
  · exact hs
  · next user hfind =>
    have hmem := mem_of_findByEmail hfind
    split
    · dsimp only
      exact lockInvariant_saveUser hs (fun h => hs user hmem h)
    · dsimp only
      exact lockInvariant_saveUser (lockInvariant_saveUser hs (fun h => hs user hmem h))
        (fun h => hs user hmem h)

theorem lockInvariant_resetPassword {store : Store} {raw p pc : String} {now iat : Nat}
    (hs : lockInvariant store) : lockInvariant (resetPassword store raw p pc now iat).fst := by
  unfold resetPassword
  split
  · exact hs
  · next user hfind =>
    have hmem := List.mem_of_find?_eq_some hfind
    split
    · dsimp only
      exact lockInvariant_saveUser hs (fun h => hs user hmem h)
    · exact hs

theorem lockInvariant_updatePassword {store : Store} {uid : Nat} {pcur p pc : String}
    {now iat : Nat} (hs : lockInvariant store) :
    lockInvariant (updatePassword store uid pcur p pc now iat).fst := by
  unfold updatePassword
  split
  · exact hs
  · next user hfind =>
    have hmem := List.mem_of_find?_eq_some hfind
    split
    · exact hs
    · split
      · dsimp only
        exact lockInvariant_saveUser hs (fun h => hs user hmem h)
      · exact hs

theorem login_wrong_password_step (store : Store) (u : UserDoc) (e p : String) (iat : Nat)
    (hne : ¬ (e = "" ∨ p = ""))
    (hfind : findByEmail store e = some u)
    (hwrong : correctPassword p u.password = false) :
    login store e p iat =
      (saveUser store { u with
          loginAttempts := u.loginAttempts + 1
          locked := if u.loginAttempts + 1 > 2 then true else u.locked },
       .err incorrectError) := by
  unfold login
  rw [if_neg hne, hfind]
  simp [hwrong]

theorem findByEmail_saveUser (store : Store) (u u1 : UserDoc) (e : String)
    (hu1mail : u1.email = e) (hu1id : u1.id = u.id)
    (hfind : findByEmail store e = some u)
    (hid : ∀ v ∈ store, v.id = u.id → v = u) :
    findByEmail (saveUser store u1) e = some u1 := by
  induction store with
  | nil => simp [findByEmail] at hfind
  | cons w ws ih =>
    rw [findByEmail] at hfind
    by_cases hw : (w.email == e) = true
    · rw [@List.find?_cons_of_pos _ (fun x => x.email == e) w ws hw] at hfind
      have hwu : w = u := Option.some.inj hfind
      subst hwu
      unfold findByEmail saveUser
      rw [List.map_cons]
      rw [if_pos (beq_iff_eq.mpr hu1id.symm)]
      exact @List.find?_cons_of_pos _ (fun x => x.email == e) u1 _ (beq_iff_eq.mpr hu1mail)
    · rw [@List.find?_cons_of_neg _ (fun x => x.email == e) w ws hw] at hfind
      have hwmem : w ∈ w :: ws := List.mem_cons_self w ws
      have hwid : ¬ ((w.id == u1.id) = true) := by
        intro hcontra
        have hwu : w = u := hid w hwmem (hu1id ▸ beq_iff_eq.mp hcontra)
        apply hw
        rw [hwu]
        have hpu := List.find?_some hfind
        exact hpu
      have hid2 : ∀ v ∈ ws, v.id = u.id → v = u :=
        fun v hv => hid v (List.mem_cons_of_mem w hv)
      have hrec := ih hfind hid2
      unfold findByEmail saveUser
      rw [List.map_cons, if_neg hwid]
      rw [@List.find?_cons_of_neg _ (fun x => x.email == e) w _ hw]
      exact hrec

theorem saveUser_id_unique (store : Store) (u u1 : UserDoc)
    (hid : ∀ v ∈ store, v.id = u.id → v = u) (hu1id : u1.id = u.id) :
    ∀ v ∈ saveUser store u1, v.id = u.id → v = u1 := by
  intro v hv hvid
  unfold saveUser at hv
  rcases List.mem_map.mp hv with ⟨w, hw, hweq⟩
  by_cases h : (w.id == u1.id) = true
  · rw [if_pos h] at hweq
    exact hweq.symm
  · rw [if_neg h] at hweq
    have hwu : w = u := hid w hw (by rw [hweq]; exact hvid)
    exact absurd (beq_iff_eq.mpr (by rw [hwu, hu1id])) h

/-- a demonstration account used by concrete runs below. -/
def demoUser : UserDoc :=
  { id := 1
    name := "Alice"
    email := "a@x.com"
    password := bcryptHash 12 "pw12345678"
    passwordConfirm := none
    confirmedEmail := true
    emailConfirmToken := none
    passwordResetToken := none
    passwordResetExpires := none
    accountUnlockToken := none
    loginAttempts := 0
    locked := false
    passwordChangedAt := none }

example :
    (login [demoUser] "a@x.com" "wrong" 0).snd = .err incorrectError := by decide

example :
    (login [demoUser] "a@x.com" "pw12345678" 7).snd =
      .ok { statusCode := 200, token := some { id := 1, iat := 7 }, message := none } := by
  decide

/-- the lockout invariant exactly as the claim words it: a locked user has
strictly more than 3 recorded attempts. -/
def claimedLockInvariant (store : Store) : Prop :=
  ∀ u ∈ store, u.locked = true → u.loginAttempts > 3

instance (store : Store) : Decidable (claimedLockInvariant store) := by
  unfold claimedLockInvariant; infer_instance

/-- C2 counterexample: a store satisfying the claimed invariant (locked implies
loginAttempts > 3) stops satisfying it after a single login operation - the
third consecutive failure locks the demonstration account at loginAttempts = 3,
and 3 > 3 is false.  So the claimed invariant is not preserved by every
operation on a user. -/
theorem lock_at_three_attempts_cex :
    claimedLockInvariant [{ demoUser with loginAttempts := 2 }] ∧
    ¬ claimedLockInvariant
        (applyOp [{ demoUser with loginAttempts := 2 }] (.loginOp "a@x.com" "wrong" 0)).fst := by
  constructor
  · decide
  · decide

/-- C2 (corrected): the invariant the code actually preserves under every
operation on a user is locked = true implies loginAttempts > 2: the source
locks once the counter strictly exceeds 2, i.e. on the third failed attempt,
not once it exceeds 3. -/
theorem lock_implies_over_threshold_preserved (store : Store) (op : Op)
    (h : lockInvariant store) : lockInvariant (applyOp store op).fst := by
  cases op with
  | signupOp n e p pc raw emailOk => exact lockInvariant_signup h
  | confirmEmailOp raw iat => exact lockInvariant_confirmEmail h
  | loginOp e p iat => exact lockInvariant_login h
  | checkUserLockedOp e raw emailOk => exact lockInvariant_checkUserLocked h
  | unlockAccountOp raw iat => exact lockInvariant_unlockAccount h
  | forgotPasswordOp e raw now emailOk => exact lockInvariant_forgotPassword h
  | resetPasswordOp raw p pc now iat => exact lockInvariant_resetPassword h
  | updatePasswordOp uid pcur p pc now iat => exact lockInvariant_updatePassword h

/-- C2 witness: the preserved invariant instantiated on the demonstration
store and a failing login. -/
theorem lock_implies_over_threshold_witness :
    lockInvariant [{ demoUser with loginAttempts := 2 }] ∧
    lockInvariant
      (applyOp [{ demoUser with loginAttempts := 2 }] (.loginOp "a@x.com" "wrong" 0)).fst :=
  ⟨by decide,
   lock_implies_over_threshold_preserved [{ demoUser with loginAttempts := 2 }]
     (.loginOp "a@x.com" "wrong" 0) (by decide)⟩

/-- C3 (code bug): a successful login answers 200 with a session token, yet the
Credential Store still holds the old loginAttempts value afterwards - the
handler resets the counter only on the in-memory document and never calls
save on the success path; unlockAccount, by contrast, does persist the 0. -/
theorem login_success_does_not_persist_reset :
    (login [{ demoUser with loginAttempts := 2 }] "a@x.com" "pw12345678" 5).snd =
      .ok { statusCode := 200, token := some { id := 1, iat := 5 }, message := none } ∧
    (login [{ demoUser with loginAttempts := 2 }] "a@x.com" "pw12345678" 5).fst =
      [{ demoUser with loginAttempts := 2 }] ∧
    (∀ u ∈ (unlockAccount [{ demoUser with
        loginAttempts := 4
        locked := true
        accountUnlockToken := some (sha256Hex "unlockraw") }] "unlockraw" 5).fst,
      u.loginAttempts = 0) := by
  refine ⟨by decide, by decide, by decide⟩

/-- C10 counterexample: on a save whose password field was not modified the
pre-save hook returns without touching passwordConfirm, so it does not always
clear it. -/
theorem preSaveHook_keeps_passwordConfirm_cex :
    (preSaveHook { demoUser with passwordConfirm := some "plaintext" } false).passwordConfirm =
      some "plaintext" := by
  decide

theorem bcryptHash_ne_plain (cost : Nat) (s : String) : bcryptHash cost s ≠ s := by
  intro h
  have hl := congrArg String.length h
  rw [bcryptHash] at hl
  rw [String.length_append, String.length_append, String.length_append] at hl
  have h7 : "bcrypt.".length = 7 := rfl
  have h1 : ".".length = 1 := rfl
  omega

/-- C10 (corrected): the pre-save hook hashes the password with bcrypt cost 12
and deletes passwordConfirm exactly when the password field was modified; a
save with an unmodified password leaves the document untouched, and a
password-modifying save never persists a passwordConfirm value and stores the
bcrypt digest rather than the plaintext. -/
theorem preSaveHook_clears_confirm_iff_modified (doc : UserDoc) :
    preSaveHook doc false = doc ∧
    (preSaveHook doc true).passwordConfirm = none ∧
    (preSaveHook doc true).password = bcryptHash 12 doc.password ∧
    (preSaveHook doc true).password ≠ doc.password := by
  refine ⟨rfl, rfl, rfl, ?_⟩
  exact bcryptHash_ne_plain 12 doc.password

/-- C4: any request whose session token carries an issued-at instant strictly
earlier than the subject user's passwordChangedAt is rejected by protect with
the 401 password-changed error, and access is never granted. -/
theorem protect_rejects_stale_token (store : Store) (t : SessionToken) (u : UserDoc)
    (pca : Nat)
    (hfind : store.find? (fun v => v.id == t.id) = some u)
    (hpca : u.passwordChangedAt = some pca)
    (hstale : t.iat < pca) :
    protect store (some t) =
      .error { message := "User recently changed password! Please log in again.", statusCode := 401 } ∧
    ∀ v : UserDoc, protect store (some t) ≠ .ok v := by
  have hch : changedPasswordAfter u t.iat = true := by
    unfold changedPasswordAfter
    rw [hpca]
    simp [hstale]
  have hrej : protect store (some t) =
      .error { message := "User recently changed password! Please log in again.", statusCode := 401 } := by
    unfold protect
    dsimp only
    rw [hfind]
    simp [hch]
  exact ⟨hrej, fun v hv => by rw [hrej] at hv; exact Except.noConfusion hv⟩

/-- C4 witness: a concrete user whose password changed at instant 100 and a
token issued at instant 50. -/
theorem protect_rejects_stale_token_witness :
    protect [{ demoUser with passwordChangedAt := some 100 }] (some { id := 1, iat := 50 }) =
      .error { message := "User recently changed password! Please log in again.", statusCode := 401 } :=
  (protect_rejects_stale_token [{ demoUser with passwordChangedAt := some 100 }]
    { id := 1, iat := 50 } { demoUser with passwordChangedAt := some 100 } 100
    (by decide) (by decide) (by decide)).1

/-- C5: the login pipeline answers an unknown email and a known email with a
wrong password with the same generic 401 error, so the two cases are not
distinguishable from its output. -/
theorem login_unknown_email_indistinguishable
    (s1 s2 : Store) (e1 e2 p1 p2 : String) (iat1 iat2 : Nat) (u : UserDoc)
    (hne1 : ¬ (e1 = "" ∨ p1 = ""))
    (hne2 : ¬ (e2 = "" ∨ p2 = ""))
    (hnone : findByEmail s1 e1 = none)
    (hfound : findByEmail s2 e2 = some u)
    (hwrong : correctPassword p2 u.password = false) :
    (login s1 e1 p1 iat1).snd = .err incorrectError ∧
    (login s2 e2 p2 iat2).snd = .err incorrectError ∧
    (login s1 e1 p1 iat1).snd = (login s2 e2 p2 iat2).snd := by
  have h1 : (login s1 e1 p1 iat1).snd = .err incorrectError := by
    unfold login
    rw [if_neg hne1, hnone]
  have h2 : (login s2 e2 p2 iat2).snd = .err incorrectError := by
    unfold login
    rw [if_neg hne2, hfound]
    simp [hwrong]
  exact ⟨h1, h2, h1.trans h2.symm⟩

/-- C5 witness: the empty store versus the demonstration account with a wrong
password. -/
theorem login_unknown_email_indistinguishable_witness :
    (login [] "b@x.com" "whatever1" 0).snd = .err incorrectError ∧
    (login [demoUser] "a@x.com" "wrong" 0).snd = .err incorrectError ∧
    (login [] "b@x.com" "whatever1" 0).snd = (login [demoUser] "a@x.com" "wrong" 0).snd :=
  login_unknown_email_indistinguishable [] [demoUser] "b@x.com" "a@x.com"
    "whatever1" "wrong" 0 0 demoUser (by decide) (by decide) (by decide) (by decide) (by decide)

/-- C9: checkUserLocked answers an unknown email with 400 User not found!,
observably different from the generic 401 of login on the same unknown email,
so this endpoint does reveal whether an account exists. -/
theorem checkUserLocked_reveals_account_existence
    (store : Store) (e p raw : String) (emailOk : Bool) (iat : Nat)
    (hnone : findByEmail store e = none)
    (hne : ¬ (e = "" ∨ p = "")) :
    (checkUserLocked store e raw emailOk).snd =
      .err { message := "User not found!", statusCode := 400 } ∧
    (login store e p iat).snd = .err incorrectError ∧
    HandlerOut.err { message := "User not found!", statusCode := 400 } ≠ .err incorrectError := by
  refine ⟨?_, ?_, by decide⟩
  · unfold checkUserLocked
    rw [hnone]
  · unfold login
    rw [if_neg hne, hnone]

/-- C9 witness: the empty store and a probe email. -/
theorem checkUserLocked_reveals_account_existence_witness :
    (checkUserLocked [] "b@x.com" "tok" true).snd =
      .err { message := "User not found!", statusCode := 400 } ∧
    (login [] "b@x.com" "pw" 0).snd = .err incorrectError ∧
    HandlerOut.err { message := "User not found!", statusCode := 400 } ≠ .err incorrectError :=
  checkUserLocked_reveals_account_existence [] "b@x.com" "pw" "tok" true 0
    (by decide) (by decide)

theorem login_wrong_password_state (store : Store) (u : UserDoc) (e p : String) (iat : Nat)
    (he : u.email = e)
    (hne : ¬ (e = "" ∨ p = ""))
    (hfind : findByEmail store e = some u)
    (hid : ∀ v ∈ store, v.id = u.id → v = u)
    (hwrong : correctPassword p u.password = false) :
    ∃ u1 : UserDoc,
      u1.email = e ∧ u1.id = u.id ∧ u1.password = u.password ∧
      u1.loginAttempts = u.loginAttempts + 1 ∧
      u1.locked = (if u.loginAttempts + 1 > 2 then true else u.locked) ∧
      findByEmail (login store e p iat).fst e = some u1 ∧
      (∀ v ∈ (login store e p iat).fst, v.id = u1.id → v = u1) := by
  refine ⟨{ u with
      loginAttempts := u.loginAttempts + 1
      locked := if u.loginAttempts + 1 > 2 then true else u.locked },
    he, rfl, rfl, rfl, rfl, ?_, ?_⟩
  · rw [login_wrong_password_step store u e p iat hne hfind hwrong]
    exact findByEmail_saveUser store u _ e he rfl hfind hid
  · rw [login_wrong_password_step store u e p iat hne hfind hwrong]
    exact saveUser_id_unique store u _ hid rfl

/-- C7: starting from loginAttempts = 0, three consecutive logins with a wrong
password leave the stored account locked, with the counter persisted at 3. -/
theorem three_failed_logins_lock
    (store : Store) (p : String) (u : UserDoc) (iat : Nat)
    (hne : ¬ (u.email = "" ∨ p = ""))
    (hfind : findByEmail store u.email = some u)
    (hid : ∀ v ∈ store, v.id = u.id → v = u)
    (hwrong : correctPassword p u.password = false)
    (h0 : u.loginAttempts = 0) :
    ∃ v, findByEmail
        (login (login (login store u.email p iat).fst u.email p iat).fst u.email p iat).fst
        u.email = some v ∧
      v.locked = true ∧ v.loginAttempts = 3 := by
  obtain ⟨u1, hm1, hi1, hp1, ha1, hl1, hf1, hq1⟩ :=
    login_wrong_password_state store u u.email p iat rfl hne hfind hid hwrong
  obtain ⟨u2, hm2, hi2, hp2, ha2, hl2, hf2, hq2⟩ :=
    login_wrong_password_state (login store u.email p iat).fst u1 u.email p iat hm1 hne hf1
      hq1 (by rw [hp1]; exact hwrong)
  obtain ⟨u3, hm3, hi3, hp3, ha3, hl3, hf3, hq3⟩ :=
    login_wrong_password_state (login (login store u.email p iat).fst u.email p iat).fst
      u2 u.email p iat hm2 hne hf2 hq2 (by rw [hp2, hp1]; exact hwrong)
  refine ⟨u3, hf3, ?_, ?_⟩
  · rw [hl3, ha2, ha1, h0]
    simp
  · rw [ha3, ha2, ha1, h0]

/-- C7 witness: the demonstration account, three wrong passwords. -/
theorem three_failed_logins_lock_witness :
    ∃ v, findByEmail
        (login (login (login [demoUser] "a@x.com" "wrong" 0).fst "a@x.com" "wrong" 0).fst
          "a@x.com" "wrong" 0).fst "a@x.com" = some v ∧
      v.locked = true ∧ v.loginAttempts = 3 :=
  three_failed_logins_lock [demoUser] "wrong" demoUser 0
    (by decide) (by decide) (by decide) (by decide) (by decide)

theorem mem_saveUser_strong {store : Store} {u v : UserDoc} (hv : v ∈ saveUser store u) :
    v = u ∨ (v ∈ store ∧ v.id ≠ u.id) := by
  unfold saveUser at hv
  rcases List.mem_map.mp hv with ⟨w, hw, hweq⟩
  by_cases h : (w.id == u.id) = true
  · rw [if_pos h] at hweq
    exact Or.inl hweq.symm
  · rw [if_neg h] at hweq
    refine Or.inr ⟨hweq ▸ hw, ?_⟩
    rw [← hweq]
    exact fun hc => h (beq_iff_eq.mpr hc)

/-- C1 counterexample: a valid signup whose confirmation email fails to send
leaves the freshly minted emailConfirmToken hash in the store and surfaces no
500 delivery error at all - sendEmailToken is invoked without the next
callback, so that request receives no response - refuting the claim for the
signup flow. -/
theorem signup_email_failure_no_rollback_cex :
    (signup [] "Alice" "a@x.com" "pw12345678" "pw12345678" "rawtok" false).snd = .noResponse ∧
    ∃ u ∈ (signup [] "Alice" "a@x.com" "pw12345678" "pw12345678" "rawtok" false).fst,
      u.emailConfirmToken = some (sha256Hex "rawtok") := by
  constructor
  · decide
  · decide

/-- C1 (corrected): on email-delivery failure, forgotPassword and
checkUserLocked do clear the freshly minted token fields before returning and
surface the 500 delivery error, distinct from the 400 validation error; the
signup flow however leaves the minted emailConfirmToken in place and surfaces
no delivery error at all (no response), because sendEmailToken is called
without the next callback. -/
theorem email_failure_rollback
    (store : Store) (u : UserDoc) (e raw : String) (now : Nat)
    (hfind : findByEmail store e = some u)
    (hlocked : u.locked = true)
    (s0 : Store) (n e0 p0 raw0 : String)
    (hvalid : validSignup s0 n e0 p0 p0 = true) :
    ((forgotPassword store e raw now false).snd = .err emailSendError ∧
      ∀ v ∈ (forgotPassword store e raw now false).fst, v.id = u.id →
        v.passwordResetToken = none ∧ v.passwordResetExpires = none) ∧
    ((checkUserLocked store e raw false).snd = .err emailSendError ∧
      ∀ v ∈ (checkUserLocked store e raw false).fst, v.id = u.id →
        v.accountUnlockToken = none) ∧
    ((signup s0 n e0 p0 p0 raw0 false).snd = .noResponse ∧
      ∃ v ∈ (signup s0 n e0 p0 p0 raw0 false).fst,
        v.emailConfirmToken = some (sha256Hex raw0)) ∧
    emailSendError.statusCode = 500 ∧ validationError.statusCode = 400 := by
  refine ⟨⟨?_, ?_⟩, ⟨?_, ?_⟩, ⟨?_, ?_⟩, rfl, rfl⟩
  · unfold forgotPassword
    rw [hfind]
    rfl
  · unfold forgotPassword
    rw [hfind]
    dsimp only
    intro v hv hvid
    rcases mem_saveUser_strong hv with rfl | ⟨hvs, hvne⟩
    · exact ⟨rfl, rfl⟩
    · exact absurd hvid hvne
  · unfold checkUserLocked
    rw [hfind]
    simp [hlocked]
  · unfold checkUserLocked
    rw [hfind]
    simp only [hlocked, if_true]
    intro v hv hvid
    rcases mem_saveUser_strong hv with rfl | ⟨hvs, hvne⟩
    · rfl
    · exact absurd hvid hvne
  · unfold signup
    simp only [hvalid]
    rfl
  · unfold signup
    simp only [hvalid]
    refine ⟨{ id := freshId s0
              name := n
              email := e0
              password := bcryptHash 12 p0
              passwordConfirm := none
              confirmedEmail := false
              emailConfirmToken := some (sha256Hex raw0)
              passwordResetToken := none
              passwordResetExpires := none
              accountUnlockToken := none
              loginAttempts := 0
              locked := false
              passwordChangedAt := none }, ?_, rfl⟩
    simp

/-- C1 witness: a locked demonstration account for the two rolling-back flows
and a fresh valid signup for the third. -/
theorem email_failure_rollback_witness :
    ((forgotPassword [{ demoUser with locked := true }] "a@x.com" "tok" 0 false).snd =
        .err emailSendError ∧
      ∀ v ∈ (forgotPassword [{ demoUser with locked := true }] "a@x.com" "tok" 0 false).fst,
        v.id = 1 → v.passwordResetToken = none ∧ v.passwordResetExpires = none) ∧
    ((checkUserLocked [{ demoUser with locked := true }] "a@x.com" "tok" false).snd =
        .err emailSendError ∧
      ∀ v ∈ (checkUserLocked [{ demoUser with locked := true }] "a@x.com" "tok" false).fst,
        v.id = 1 → v.accountUnlockToken = none) ∧
    ((signup [] "Alice" "b@x.com" "pw12345678" "pw12345678" "tok2" false).snd = .noResponse ∧
      ∃ v ∈ (signup [] "Alice" "b@x.com" "pw12345678" "pw12345678" "tok2" false).fst,
        v.emailConfirmToken = some (sha256Hex "tok2")) ∧
    emailSendError.statusCode = 500 ∧ validationError.statusCode = 400 :=
  email_failure_rollback [{ demoUser with locked := true }] { demoUser with locked := true }
    "a@x.com" "tok" 0 (by decide) (by decide) [] "Alice" "b@x.com" "pw12345678" "tok2"
    (by decide)

theorem resetPassword_success (store : Store) (u : UserDoc) (raw pw : String)
    (now iat : Nat)
    (hfind : store.find? (resetMatch raw now) = some u)
    (hlen : 8 ≤ pw.length) :
    resetPassword store raw pw pw now iat =
      (saveUser store { u with
          password := bcryptHash 12 pw
          passwordConfirm := none
          passwordResetToken := none
          passwordResetExpires := none
          passwordChangedAt := some now },
       .ok { statusCode := 200, token := some { id := u.id, iat := iat }, message := none }) := by
  unfold resetPassword
  rw [hfind]
  simp [hlen, createSendToken]

/-- definition following the words of the spec (section 7): an
AuthenticationError is the error kind that surfaces as a 401.  Declared only
to compare the claimed error kind with the code's behavior. -/
def specAuthenticationError (err : AppError) : Prop := err.statusCode = 401

/-- C6 counterexample: after one successful resetPassword, re-submitting the
same raw token fails with the 400 invalid-or-expired error, which is not an
AuthenticationError (401) as the claim states. -/
theorem reset_reuse_not_authentication_error_cex :
    ∃ err : AppError,
      (resetPassword
        (resetPassword [{ demoUser with
            passwordResetToken := some (sha256Hex "tok")
            passwordResetExpires := some 1000 }] "tok" "newpass123" "newpass123" 500 0).fst
        "tok" "newpass123" "newpass123" 600 1).snd = .err err ∧
      err.statusCode = 400 ∧ ¬ specAuthenticationError err := by
  refine ⟨{ message := "Token is invalid or has expired!", statusCode := 400 }, ?_, rfl, ?_⟩
  · decide
  · unfold specAuthenticationError
    decide

/-- C6 (corrected): a password-reset token is single-use - after one successful
resetPassword, re-submitting the same raw token fails and performs no
mutation, but the failure is the 400 invalid-or-expired-token error, not a
401 AuthenticationError. -/
theorem reset_token_single_use
    (store : Store) (u : UserDoc) (raw pw pw2 pc2 : String) (now1 now2 iat1 iat2 : Nat)
    (hfind : store.find? (resetMatch raw now1) = some u)
    (honly : ∀ v ∈ store, resetMatch raw now2 v = true → v.id = u.id)
    (hlen : 8 ≤ pw.length) :
    (resetPassword store raw pw pw now1 iat1).snd =
      .ok { statusCode := 200, token := some { id := u.id, iat := iat1 }, message := none } ∧
    resetPassword (resetPassword store raw pw pw now1 iat1).fst raw pw2 pc2 now2 iat2 =
      ((resetPassword store raw pw pw now1 iat1).fst,
       .err { message := "Token is invalid or has expired!", statusCode := 400 }) ∧
    ¬ specAuthenticationError { message := "Token is invalid or has expired!", statusCode := 400 } := by
  have h1 := resetPassword_success store u raw pw now1 iat1 hfind hlen
  have hnone2 : ((resetPassword store raw pw pw now1 iat1).fst).find? (resetMatch raw now2) =
      none := by
    rw [h1]
    rw [List.find?_eq_none]
    intro x hx
    rcases mem_saveUser_strong hx with rfl | ⟨hxs, hxne⟩
    · simp [resetMatch]
    · intro hmatch
      exact hxne (honly x hxs hmatch)
  refine ⟨?_, ?_, ?_⟩
  · rw [h1]
  · generalize hs : (resetPassword store raw pw pw now1 iat1).fst = st at hnone2 ⊢
    unfold resetPassword
    rw [hnone2]
  · unfold specAuthenticationError
    decide

/-- C6 witness: the demonstration account with a pending reset token, used
twice with the same raw token. -/
theorem reset_token_single_use_witness :
    (resetPassword [{ demoUser with
        passwordResetToken := some (sha256Hex "tok")
        passwordResetExpires := some 1000 }] "tok" "newpass123" "newpass123" 500 0).snd =
      .ok { statusCode := 200, token := some { id := 1, iat := 0 }, message := none } ∧
    resetPassword
        (resetPassword [{ demoUser with
          passwordResetToken := some (sha256Hex "tok")
          passwordResetExpires := some 1000 }] "tok" "newpass123" "newpass123" 500 0).fst
        "tok" "newpass123" "newpass123" 600 1 =
      ((resetPassword [{ demoUser with
          passwordResetToken := some (sha256Hex "tok")
          passwordResetExpires := some 1000 }] "tok" "newpass123" "newpass123" 500 0).fst,
       .err { message := "Token is invalid or has expired!", statusCode := 400 }) ∧
    ¬ specAuthenticationError { message := "Token is invalid or has expired!", statusCode := 400 } :=
  reset_token_single_use
    [{ demoUser with
        passwordResetToken := some (sha256Hex "tok")
        passwordResetExpires := some 1000 }]
    { demoUser with
        passwordResetToken := some (sha256Hex "tok")
        passwordResetExpires := some 1000 }
    "tok" "newpass123" "newpass123" "newpass123" 500 600 0 1
    (by decide) (by decide) (by decide)

/-- C8: resetPassword and unlockAccount issue a signed session token to any
user whose presented token hash matches, never consulting confirmedEmail, so
an unconfirmed user obtains a session there even though login rejects the
same user with 423. -/
theorem reset_unlock_bypass_email_confirmation
    (s1 s2 s3 : Store) (u1 u2 u3 : UserDoc) (raw1 raw2 pw1 e3 p3 : String)
    (now iat : Nat)
    (hfind1 : s1.find? (resetMatch raw1 now) = some u1)
    (hunconf1 : u1.confirmedEmail = false)
    (hlen : 8 ≤ pw1.length)
    (hfind2 : s2.find? (unlockMatch raw2) = some u2)
    (hunconf2 : u2.confirmedEmail = false)
    (hne : ¬ (e3 = "" ∨ p3 = ""))
    (hfind3 : findByEmail s3 e3 = some u3)
    (hcorrect : correctPassword p3 u3.password = true)
    (hunconf3 : u3.confirmedEmail = false) :
    (resetPassword s1 raw1 pw1 pw1 now iat).snd =
      .ok { statusCode := 200, token := some { id := u1.id, iat := iat }, message := none } ∧
    (unlockAccount s2 raw2 iat).snd =
      .ok { statusCode := 200, token := some { id := u2.id, iat := iat }, message := none } ∧
    (login s3 e3 p3 iat).snd =
      .err { message := "Email was not confirmed! Please check your inbox.", statusCode := 423 } := by
  refine ⟨?_, ?_, ?_⟩
  · rw [resetPassword_success s1 u1 raw1 pw1 now iat hfind1 hlen]
  · unfold unlockAccount
    rw [hfind2]
    rfl
  · unfold login
    rw [if_neg hne, hfind3]
    simp [hcorrect, hunconf3]

/-- C8 witness: an unconfirmed account holding a valid reset token, an
unconfirmed locked account holding an unlock token, and the same unconfirmed
account facing a correct-password login. -/
theorem reset_unlock_bypass_email_confirmation_witness :
    (resetPassword [{ demoUser with
        confirmedEmail := false
        passwordResetToken := some (sha256Hex "tokr")
        passwordResetExpires := some 1000 }] "tokr" "newpass123" "newpass123" 500 9).snd =
      .ok { statusCode := 200, token := some { id := 1, iat := 9 }, message := none } ∧
    (unlockAccount [{ demoUser with
        confirmedEmail := false
        locked := true
        accountUnlockToken := some (sha256Hex "toku") }] "toku" 9).snd =
      .ok { statusCode := 200, token := some { id := 1, iat := 9 }, message := none } ∧
    (login [{ demoUser with confirmedEmail := false }] "a@x.com" "pw12345678" 9).snd =
      .err { message := "Email was not confirmed! Please check your inbox.", statusCode := 423 } :=
  reset_unlock_bypass_email_confirmation
    [{ demoUser with
        confirmedEmail := false
        passwordResetToken := some (sha256Hex "tokr")
        passwordResetExpires := some 1000 }]
    [{ demoUser with
        confirmedEmail := false
        locked := true
        accountUnlockToken := some (sha256Hex "toku") }]
    [{ demoUser with confirmedEmail := false }]
    { demoUser with
        confirmedEmail := false
        passwordResetToken := some (sha256Hex "tokr")
        passwordResetExpires := some 1000 }
    { demoUser with
        confirmedEmail := false
        locked := true
        accountUnlockToken := some (sha256Hex "toku") }
    { demoUser with confirmedEmail := false }
    "tokr" "toku" "newpass123" "a@x.com" "pw12345678" 500 9
    (by decide) (by decide) (by decide) (by decide) (by decide) (by decide) (by decide)
    (by decide) (by decide)

end Natours
